import Mathlib

/-!
Shallow embedding of the `maybe-ts` library (src/maybe.ts, src/result.ts).

JavaScript runtime values relevant to the library are modelled by `JSVal`.
A `Maybe` instance is modelled by `MaybeObj` (the three concrete shapes
`MaybeValue`, the `MaybeNone` singleton, and `MaybeNotFound`), a `Result`
instance by `ResultObj` (`OkayResult` / `ErrorResult`).  Because a wrapper
instance is itself a JavaScript value that can be stored as a payload,
`JSVal` has injection constructors for the wrapper shapes; `MaybeObj.toJS`
and `ResultObj.toJS` are the injections.

Thrown JavaScript exceptions are modelled with `Except JSVal`: a method
that may throw returns `Except JSVal α`, `.error t` meaning the value `t`
was thrown.  `Error` objects are modelled by `ErrObj`, remembering which
class the error was constructed from (`NoneError`, `NotFoundError`, or the
plain built-in `Error`) together with its `message`.  The `ErrorResult`
constructor's captured stack snapshot is purely diagnostic text read from
the runtime environment; it is not modelled.
-/

namespace MaybeTs

/-- Which JavaScript error class an `Error` object was constructed from. -/
inductive ErrKind where
  | noneError
  | notFoundError
  | plainError
  deriving DecidableEq

/-- A JavaScript `Error` object: its class and its `message` property. -/
structure ErrObj where
  kind : ErrKind
  message : String
  deriving DecidableEq

/-- The `status` property of an error object: `NotFoundError` declares
`readonly status = 404`; the other error classes have no such field. -/
def ErrObj.status : ErrObj → Option Nat
  | ⟨.notFoundError, _⟩ => some 404
  | _ => Option.none

/-- The `statusCode` property of an error object: `NotFoundError` declares
`readonly statusCode = 404`; the other error classes have no such field. -/
def ErrObj.statusCode : ErrObj → Option Nat
  | ⟨.notFoundError, _⟩ => some 404
  | _ => Option.none

/-- `new NoneError(message?)`: `super(message ?? "Maybe is none")`. -/
def mkNoneError (message : Option String) : ErrObj :=
  ⟨.noneError, message.getD "Maybe is none"⟩

/-- `new NotFoundError(msg)`. -/
def mkNotFoundError (msg : String) : ErrObj :=
  ⟨.notFoundError, msg⟩

/-- JavaScript runtime values the library manipulates: primitives, arrays,
error objects, and the wrapper instances themselves. -/
inductive JSVal where
  | null
  | undefined
  | num (n : Int)
  | str (s : String)
  | boolean (b : Bool)
  | arr (xs : List JSVal)
  | err (e : ErrObj)
  | maybeValue (v : JSVal)
  | maybeNone
  | maybeNotFound (what : List String)
  | okayResult (v : JSVal)
  | errorResult (e : JSVal)

/-- A `Maybe` instance: `MaybeValue` with its `value` field, the `MaybeNone`
singleton, or a `MaybeNotFound` with its `what` field. -/
inductive MaybeObj where
  | value (v : JSVal)
  | none
  | notFound (what : List String)

/-- A `Result` instance: `OkayResult` or `ErrorResult`, with the `value` field. -/
inductive ResultObj where
  | okay (v : JSVal)
  | error (e : JSVal)

/-- A `Maybe` instance regarded as a JavaScript value. -/
def MaybeObj.toJS : MaybeObj → JSVal
  | .value v => .maybeValue v
  | .none => .maybeNone
  | .notFound what => .maybeNotFound what

/-- A `Result` instance regarded as a JavaScript value. -/
def ResultObj.toJS : ResultObj → JSVal
  | .okay v => .okayResult v
  | .error e => .errorResult e

/-- The `isValue` discriminant (`true` only on `MaybeValue`). -/
def MaybeObj.isValue : MaybeObj → Bool
  | .value _ => true
  | _ => false

/-- The `isOkay` discriminant (`true` only on `OkayResult`). -/
def ResultObj.isOkay : ResultObj → Bool
  | .okay _ => true
  | _ => false

/-- JavaScript `value == null`, true exactly for `null` and `undefined`. -/
def nullish : JSVal → Bool
  | .null => true
  | .undefined => true
  | _ => false

/-- JavaScript `x instanceof OkayResult || x instanceof ErrorResult`. -/
def JSVal.isResultInstance : JSVal → Bool
  | .okayResult _ => true
  | .errorResult _ => true
  | _ => false

/-- The `??` operator applied to an optional parameter: the right operand is
used when the argument is omitted (`undefined`) or nullish. -/
def jsCoalesce (a : Option JSVal) (b : JSVal) : JSVal :=
  match a with
  | some v => if nullish v then b else v
  | Option.none => b

/-- `new MaybeValue(value)`.  The constructor body stores `value` and then,
to protect against nesting, replaces it by `value.value` when
`value instanceof MaybeValue`. -/
def mkMaybeValue : JSVal → MaybeObj
  | .maybeValue v => .value v
  | v => .value v

/-- `new OkayResult(value)`.  The constructor body stores `value` and then,
to protect against double-wrapping, replaces it by `value.value` when
`value instanceof OkayResult || value instanceof ErrorResult`. -/
def mkOkayResult : JSVal → ResultObj
  | .okayResult v => .okay v
  | .errorResult e => .okay e
  | v => .okay v

/-- `new ErrorResult(value)`.  Same double-wrapping protection as
`OkayResult`; the captured stack snapshot is diagnostic only and omitted. -/
def mkErrorResult : JSVal → ResultObj
  | .okayResult v => .error v
  | .errorResult e => .error e
  | v => .error v

/-- `Maybe#unwrap`: `MaybeValue` returns `this.value`; `MaybeNone` throws
`new NoneError()`; `MaybeNotFound` overrides it and throws
`new NotFoundError("NotFound: " + this.what.join(" "))`. -/
def MaybeObj.unwrap : MaybeObj → Except JSVal JSVal
  | .value v => .ok v
  | .none => .error (.err (mkNoneError Option.none))
  | .notFound what =>
      .error (.err (mkNotFoundError ("NotFound: " ++ String.intercalate " " what)))

/-- `Result#unwrap`: `OkayResult` returns `this.value`; `ErrorResult` throws
`this.value`. -/
def ResultObj.unwrap : ResultObj → Except JSVal JSVal
  | .okay v => .ok v
  | .error e => .error e

/-- `Maybe#unwrapOrElse`: `MaybeValue` returns `this.value` without calling
the callback; `MaybeNone` returns `altValueFn()`. -/
def MaybeObj.unwrapOrElse : MaybeObj → (Unit → JSVal) → JSVal
  | .value v, _ => v
  | _, altValueFn => altValueFn ()

/-- `Maybe#orElse`: `MaybeValue` returns `this`; `MaybeNone` returns
`otherFn()`. -/
def MaybeObj.orElse : MaybeObj → (Unit → MaybeObj) → MaybeObj
  | .value v, _ => .value v
  | _, otherFn => otherFn ()

/-- `Maybe#map`: `MaybeValue` returns `new MaybeValue(mapperFn(this.value))`;
`MaybeNone` returns `this` without calling the mapper. -/
def MaybeObj.map : MaybeObj → (JSVal → JSVal) → MaybeObj
  | .value v, mapperFn => mkMaybeValue (mapperFn v)
  | m, _ => m

/-- `Maybe#mapOr`: always produces a `MaybeValue`; the mapper is used on a
`MaybeValue`, the eager alternative on a `MaybeNone`. -/
def MaybeObj.mapOr : MaybeObj → (JSVal → JSVal) → JSVal → MaybeObj
  | .value v, mapperFn, _ => mkMaybeValue (mapperFn v)
  | _, _, altValue => mkMaybeValue altValue

/-- `Maybe#mapOrElse`: always produces a `MaybeValue`; the mapper is used on
a `MaybeValue`, the lazy callback on a `MaybeNone`. -/
def MaybeObj.mapOrElse : MaybeObj → (JSVal → JSVal) → (Unit → JSVal) → MaybeObj
  | .value v, mapperFn, _ => mkMaybeValue (mapperFn v)
  | _, _, altValueFn => mkMaybeValue (altValueFn ())

/-- `Maybe#andThen`: `MaybeValue` returns `mapperFn(this.value)`;
`MaybeNone` returns `this` without calling the mapper. -/
def MaybeObj.andThen : MaybeObj → (JSVal → MaybeObj) → MaybeObj
  | .value v, mapperFn => mapperFn v
  | m, _ => m

/-- `Maybe#filter`: `MaybeValue` returns `this` when the predicate holds and
`Maybe.None` otherwise; `MaybeNone` returns `this` without calling it. -/
def MaybeObj.filter : MaybeObj → (JSVal → Bool) → MaybeObj
  | .value v, predicateFn => if predicateFn v then .value v else .none
  | m, _ => m

/-- `Maybe#toResult`: `MaybeValue` returns `new OkayResult(this.value)`;
`MaybeNone` returns `new ErrorResult(error ?? new NoneError())`. -/
def MaybeObj.toResult (m : MaybeObj) (error : Option JSVal) : ResultObj :=
  match m with
  | .value v => mkOkayResult v
  | _ => mkErrorResult (jsCoalesce error (.err (mkNoneError Option.none)))

/-- `Result#toMaybe`: `OkayResult` returns `Maybe.withValue(this.value)`;
`ErrorResult` returns the `Maybe.None` singleton. -/
def ResultObj.toMaybe : ResultObj → MaybeObj
  | .okay v => mkMaybeValue v
  | .error _ => .none

/-- What iterating a JavaScript value yields.  `MaybeValue#[Symbol.iterator]`
computes `Object(this.value)` and delegates to the payload's own iterator
when `Symbol.iterator in obj`, else an immediately-done iterator.  Arrays and
strings are iterable (a string yields its characters); the wrapper instances
are iterable through their own `[Symbol.iterator]` methods; primitives and
plain error objects are not. -/
def JSVal.iterElems : JSVal → List JSVal
  | .arr xs => xs
  | .str s => s.data.map fun c => .str (String.mk [c])
  | .maybeValue v => v.iterElems
  | .okayResult v => v.iterElems
  | _ => []

/-- `Maybe#[Symbol.iterator]` as the list of yielded elements: `MaybeValue`
delegates to its payload's iterability, `MaybeNone` (and `MaybeNotFound`,
which inherits it) is immediately done. -/
def MaybeObj.iterate : MaybeObj → List JSVal
  | .value v => v.iterElems
  | _ => []

/-- The optional `altError` argument of `Maybe#unwrapOrThrow`: a message
string, a literal `Error`, or a zero-argument producer of an `Error`. -/
inductive MAlt where
  | str (s : String)
  | error (e : ErrObj)
  | fn (f : Unit → ErrObj)

/-- JavaScript truthiness test `!altError` on an optional
string-or-Error-or-function argument: only an omitted argument or the empty
string is falsy. -/
def mAltFalsy : Option MAlt → Bool
  | Option.none => true
  | some (.str s) => s == ""
  | some _ => false

/-- `Maybe#unwrapOrThrow`: `MaybeValue` returns `this.value`.  `MaybeNone`
(also inherited by `MaybeNotFound`): when `!altError`, falls back to
`this.unwrap()` (virtual, so `MaybeNotFound` raises its own error); an
`Error` is thrown as is; a function's result is thrown; a string throws
`new NoneError(altError)`. -/
def MaybeObj.unwrapOrThrow (m : MaybeObj) (altError : Option MAlt) :
    Except JSVal JSVal :=
  match m with
  | .value v => .ok v
  | m =>
    if mAltFalsy altError then m.unwrap
    else
      match altError with
      | some (.error e) => .error (.err e)
      | some (.fn f) => .error (.err (f ()))
      | some (.str s) => .error (.err (mkNoneError (some s)))
      | Option.none => m.unwrap

/-- The optional `altError` argument of `Result#unwrapOrThrow`; its producer
form receives the "error" value. -/
inductive RAlt where
  | str (s : String)
  | error (e : ErrObj)
  | fn (f : JSVal → ErrObj)

/-- JavaScript truthiness test `if (altError)`: an omitted argument and the
empty string are falsy, everything else here is truthy. -/
def rAltTruthy : Option RAlt → Bool
  | Option.none => false
  | some (.str s) => s != ""
  | some _ => true

/-- `Result#unwrapOrThrow`: `OkayResult` returns `this.value`.
`ErrorResult`: when `altError` is truthy, a function's result applied to
`this.value` is thrown, an `Error` is thrown as is, and a string throws
`new Error(altError.toString())`; otherwise `this.value` is thrown. -/
def ResultObj.unwrapOrThrow (r : ResultObj) (altError : Option RAlt) :
    Except JSVal JSVal :=
  match r with
  | .okay v => .ok v
  | .error e =>
    if rAltTruthy altError then
      match altError with
      | some (.fn f) => .error (.err (f e))
      | some (.error e2) => .error (.err e2)
      | some (.str s) => .error (.err ⟨.plainError, s⟩)
      | Option.none => .error e
    else .error e

/-- The loop of `Maybe.allOrNone`, carrying the `someValues` accumulator:
a `MaybeValue` pushes its `value`; any other element is returned itself;
after the loop the accumulated array is wrapped in `new MaybeValue(...)`. -/
def Maybe.allOrNoneGo : List MaybeObj → List JSVal → MaybeObj
  | [], someValues => mkMaybeValue (.arr someValues)
  | .value v :: rest, someValues => Maybe.allOrNoneGo rest (someValues ++ [v])
  | m :: _, _ => m

/-- `Maybe.allOrNone(...maybes)`. -/
def Maybe.allOrNone (maybes : List MaybeObj) : MaybeObj :=
  Maybe.allOrNoneGo maybes []

/-- `Maybe.any(...maybes)`: returns the first `MaybeValue` element itself,
or the `Maybe.None` singleton when there is none. -/
def Maybe.any : List MaybeObj → MaybeObj
  | [] => .none
  | .value v :: _ => .value v
  | _ :: rest => Maybe.any rest

/-- `Maybe.wrap(value)`: `value == null ? None : new MaybeValue(value)`. -/
def Maybe.wrap (value : JSVal) : MaybeObj :=
  if nullish value then .none else mkMaybeValue value

/-- The loop of `Result.all`, carrying the `okResult` accumulator: an
`OkayResult` pushes its `value`; an `ErrorResult` element is returned
itself; after the loop the array is wrapped in `new OkayResult(...)`. -/
def Result.allGo : List ResultObj → List JSVal → ResultObj
  | [], okResult => mkOkayResult (.arr okResult)
  | .okay v :: rest, okResult => Result.allGo rest (okResult ++ [v])
  | r :: _, _ => r

/-- `Result.all(...results)`. -/
def Result.all (results : List ResultObj) : ResultObj :=
  Result.allGo results []

/-- The loop of `Result.any`, carrying the `errResult` accumulator: the
first `OkayResult` element is returned itself; an `ErrorResult` pushes its
`value`; after the loop the array is wrapped in `new ErrorResult(...)`. -/
def Result.anyGo : List ResultObj → List JSVal → ResultObj
  | [], errResult => mkErrorResult (.arr errResult)
  | .okay v :: _, _ => .okay v
  | .error e :: rest, errResult => Result.anyGo rest (errResult ++ [e])

/-- `Result.any(...results)`. -/
def Result.any (results : List ResultObj) : ResultObj :=
  Result.anyGo results []

/-- The behaviour of a zero-argument callback: it returns a value normally
(`.ok`) or throws one (`.error`). -/
abbrev CallOutcome := Except JSVal JSVal

/-- `Result.wrap(opFn)`: a normal return becomes `new OkayResult(opFn())`, a
throw is caught into `new ErrorResult(e)`. -/
def Result.wrap : CallOutcome → ResultObj
  | .ok v => mkOkayResult v
  | .error e => mkErrorResult e

/-- The behaviour of a zero-argument asynchronous callback: it may throw
synchronously before suspending, or hand back a computation that later
resolves or rejects. -/
inductive AsyncOutcome where
  | syncThrow (e : JSVal)
  | resolve (v : JSVal)
  | reject (e : JSVal)

/-- `Result.wrapAsync(opFn)` as the `Result` its returned promise resolves
to: a resolution becomes `new OkayResult(val)`, a rejection is caught by
`.catch` into `new ErrorResult(e)`, and a synchronous throw is caught by the
surrounding `try` into a resolved `new ErrorResult(e)`; the promise itself
never rejects. -/
def Result.wrapAsync : AsyncOutcome → ResultObj
  | .syncThrow e => mkErrorResult e
  | .resolve v => mkOkayResult v
  | .reject e => mkErrorResult e

/-! ### Helper lemmas -/

lemma mkMaybeValue_arr (xs : List JSVal) :
    mkMaybeValue (.arr xs) = MaybeObj.value (.arr xs) := rfl

lemma mkOkayResult_arr (xs : List JSVal) :
    mkOkayResult (.arr xs) = ResultObj.okay (.arr xs) := rfl

lemma mkErrorResult_arr (xs : List JSVal) :
    mkErrorResult (.arr xs) = ResultObj.error (.arr xs) := rfl

lemma isValue_false_elim {m : MaybeObj} (h : m.isValue = false) :
    m = MaybeObj.none ∨ ∃ what, m = MaybeObj.notFound what := by
  cases m with
  | value v => simp [MaybeObj.isValue] at h
  | none => exact Or.inl rfl
  | notFound what => exact Or.inr ⟨what, rfl⟩

lemma isOkay_false_elim {r : ResultObj} (h : r.isOkay = false) :
    ∃ e, r = ResultObj.error e := by
  cases r with
  | okay v => simp [ResultObj.isOkay] at h
  | error e => exact ⟨e, rfl⟩

/-! ### Theorems for the claims -/

/-- C1: Constructor flattening: constructing a `MaybeValue` from an existing
`MaybeValue` yields an instance equal to the existing one (one level of
nesting is unwrapped), and likewise `Okay(Okay(v))` equals `Okay(v)` and
`Error(Error(e))` equals `Error(e)`. -/
theorem constructor_flattening (v e : JSVal) :
    mkMaybeValue (mkMaybeValue v).toJS = mkMaybeValue v
    ∧ mkOkayResult (mkOkayResult v).toJS = mkOkayResult v
    ∧ mkErrorResult (mkErrorResult e).toJS = mkErrorResult e := by
  refine ⟨?_, ?_, ?_⟩
  · cases v <;> rfl
  · cases v <;> rfl
  · cases e <;> rfl

/-- C2: Conversion round trip: `Okay(v).toMaybe()` equals `Value(v)`;
`Error(e).toMaybe()` equals the generic `None`; `Value(v).toResult(e)`
equals `Okay(v)`; `None.toResult(e)` equals `Error(e)` (for a supplied
error `e` that is not nullish, since `toResult` substitutes a `NoneError`
for a nullish argument). -/
theorem conversion_round_trip (p e : JSVal) (h : nullish e = false) :
    (ResultObj.okay p).toMaybe = mkMaybeValue p
    ∧ (ResultObj.error p).toMaybe = MaybeObj.none
    ∧ (MaybeObj.value p).toResult (some e) = mkOkayResult p
    ∧ MaybeObj.none.toResult (some e) = mkErrorResult e := by
  refine ⟨rfl, rfl, rfl, ?_⟩
  simp [MaybeObj.toResult, jsCoalesce, h]

theorem conversion_round_trip_witness :
    (ResultObj.okay (.num 1)).toMaybe = mkMaybeValue (.num 1)
    ∧ (ResultObj.error (.num 1)).toMaybe = MaybeObj.none
    ∧ (MaybeObj.value (.num 1)).toResult (some (.err ⟨.plainError, "x"⟩))
        = mkOkayResult (.num 1)
    ∧ MaybeObj.none.toResult (some (.err ⟨.plainError, "x"⟩))
        = mkErrorResult (.err ⟨.plainError, "x"⟩) :=
  conversion_round_trip (.num 1) (.err ⟨.plainError, "x"⟩) rfl

/-- C4: Unwrap error taxonomy: `Value(v).unwrap()` returns `v`;
`None.unwrap()` throws the `NoneError`; `NotFound(labels).unwrap()` throws
the `NotFoundError` whose message embeds the labels joined by single
spaces, and that error carries `status = 404` and `statusCode = 404`. -/
theorem unwrap_error_taxonomy (v : JSVal) (labels : List String) :
    (MaybeObj.value v).unwrap = .ok v
    ∧ MaybeObj.none.unwrap = .error (.err (mkNoneError Option.none))
    ∧ (mkNoneError Option.none).kind = .noneError
    ∧ (MaybeObj.notFound labels).unwrap
        = .error (.err (mkNotFoundError
            ("NotFound: " ++ String.intercalate " " labels)))
    ∧ (mkNotFoundError ("NotFound: " ++ String.intercalate " " labels)).kind
        = .notFoundError
    ∧ (mkNotFoundError ("NotFound: " ++ String.intercalate " " labels)).status
        = some 404
    ∧ (mkNotFoundError ("NotFound: " ++ String.intercalate " " labels)).statusCode
        = some 404 :=
  ⟨rfl, rfl, rfl, rfl, rfl, rfl, rfl⟩

/-- C9: Iteration behavior: iterating `Value([1,2])` yields `1` then `2`;
iterating `None` or `NotFound` yields nothing; iterating a `Value` whose
payload is a non-iterable scalar (number, boolean, `null`, `undefined`, or
a plain error object) yields nothing. -/
theorem iteration_behavior (what : List String) (n : Int) (b : Bool) (eo : ErrObj) :
    (MaybeObj.value (.arr [.num 1, .num 2])).iterate = [.num 1, .num 2]
    ∧ MaybeObj.none.iterate = []
    ∧ (MaybeObj.notFound what).iterate = []
    ∧ (MaybeObj.value (.num n)).iterate = []
    ∧ (MaybeObj.value (.boolean b)).iterate = []
    ∧ (MaybeObj.value .null).iterate = []
    ∧ (MaybeObj.value .undefined).iterate = []
    ∧ (MaybeObj.value (.err eo)).iterate = [] :=
  ⟨rfl, rfl, rfl, rfl, rfl, rfl, rfl, rfl⟩

/-- C10: `Maybe.wrap` tests only for nullish arguments, so wrapping the
absent singleton `Maybe.None` produces a present `MaybeValue` whose payload
is the `None` instance, while wrapping an existing `MaybeValue` collapses
to that same `MaybeValue` through the constructor's nesting protection. -/
theorem wrap_absent_maybe (v : JSVal) :
    Maybe.wrap MaybeObj.none.toJS = MaybeObj.value MaybeObj.none.toJS
    ∧ (Maybe.wrap MaybeObj.none.toJS).isValue = true
    ∧ Maybe.wrap (mkMaybeValue v).toJS = mkMaybeValue v := by
  refine ⟨rfl, rfl, ?_⟩
  cases v <;> rfl

lemma allOrNoneGo_values (vs acc : List JSVal) :
    Maybe.allOrNoneGo (vs.map MaybeObj.value) acc
      = MaybeObj.value (.arr (acc ++ vs)) := by
  induction vs generalizing acc with
  | nil => simp [Maybe.allOrNoneGo, mkMaybeValue_arr]
  | cons v vs ih =>
      simp only [List.map_cons, Maybe.allOrNoneGo, ih, List.append_assoc,
        List.singleton_append]

lemma allOrNoneGo_stop (vs : List JSVal) (m : MaybeObj) (h : m.isValue = false)
    (suffix : List MaybeObj) (acc : List JSVal) :
    Maybe.allOrNoneGo (vs.map MaybeObj.value ++ m :: suffix) acc = m := by
  induction vs generalizing acc with
  | nil =>
      rcases isValue_false_elim h with rfl | ⟨what, rfl⟩ <;> rfl
  | cons v vs ih =>
      simp only [List.map_cons, List.cons_append, Maybe.allOrNoneGo]
      exact ih _

lemma allGo_values (vs acc : List JSVal) :
    Result.allGo (vs.map ResultObj.okay) acc
      = ResultObj.okay (.arr (acc ++ vs)) := by
  induction vs generalizing acc with
  | nil => simp [Result.allGo, mkOkayResult_arr]
  | cons v vs ih =>
      simp only [List.map_cons, Result.allGo, ih, List.append_assoc,
        List.singleton_append]

lemma allGo_stop (vs : List JSVal) (r : ResultObj) (h : r.isOkay = false)
    (suffix : List ResultObj) (acc : List JSVal) :
    Result.allGo (vs.map ResultObj.okay ++ r :: suffix) acc = r := by
  induction vs generalizing acc with
  | nil =>
      rcases isOkay_false_elim h with ⟨e, rfl⟩
      rfl
  | cons v vs ih =>
      simp only [List.map_cons, List.cons_append, Result.allGo]
      exact ih _

/-- C3: Fail-fast aggregation: `Maybe.allOrNone` and `Result.all` return the
first absent/failing input element itself, unchanged (its variant, e.g. a
`NotFound`'s labels, survives), independently of whatever comes after it;
when every element is present/successful, they return one present/successful
instance wrapping the array of unwrapped payloads in input order. -/
theorem fail_fast_aggregation :
    (∀ (vs : List JSVal) (m : MaybeObj) (suffix : List MaybeObj),
      m.isValue = false →
      Maybe.allOrNone (vs.map MaybeObj.value ++ m :: suffix) = m)
    ∧ (∀ vs : List JSVal,
      Maybe.allOrNone (vs.map MaybeObj.value) = MaybeObj.value (.arr vs))
    ∧ (∀ (vs : List JSVal) (r : ResultObj) (suffix : List ResultObj),
      r.isOkay = false →
      Result.all (vs.map ResultObj.okay ++ r :: suffix) = r)
    ∧ (∀ vs : List JSVal,
      Result.all (vs.map ResultObj.okay) = ResultObj.okay (.arr vs)) := by
  refine ⟨fun vs m suffix h => allOrNoneGo_stop vs m h suffix [],
    fun vs => ?_, fun vs r suffix h => allGo_stop vs r h suffix [],
    fun vs => ?_⟩
  · simpa using allOrNoneGo_values vs []
  · simpa using allGo_values vs []

theorem fail_fast_aggregation_witness :
    Maybe.allOrNone [MaybeObj.value (.num 1), MaybeObj.notFound ["w"],
      MaybeObj.value (.num 3)] = MaybeObj.notFound ["w"]
    ∧ Maybe.allOrNone [MaybeObj.value (.num 1), MaybeObj.value (.num 2)]
        = MaybeObj.value (.arr [.num 1, .num 2])
    ∧ Result.all [ResultObj.okay (.num 1), ResultObj.error (.str "e"),
        ResultObj.okay (.num 3)] = ResultObj.error (.str "e")
    ∧ Result.all [ResultObj.okay (.num 1), ResultObj.okay (.num 2)]
        = ResultObj.okay (.arr [.num 1, .num 2]) :=
  ⟨fail_fast_aggregation.1 [.num 1] (MaybeObj.notFound ["w"])
      [MaybeObj.value (.num 3)] rfl,
    fail_fast_aggregation.2.1 [.num 1, .num 2],
    fail_fast_aggregation.2.2.1 [.num 1] (ResultObj.error (.str "e"))
      [ResultObj.okay (.num 3)] rfl,
    fail_fast_aggregation.2.2.2 [.num 1, .num 2]⟩

lemma any_skip (pre : List MaybeObj) (h : ∀ m ∈ pre, m.isValue = false)
    (rest : List MaybeObj) :
    Maybe.any (pre ++ rest) = Maybe.any rest := by
  induction pre with
  | nil => rfl
  | cons m pre ih =>
      have hm := h m (List.mem_cons_self m pre)
      have htail := fun x hx => h x (List.mem_cons_of_mem m hx)
      rcases isValue_false_elim hm with rfl | ⟨what, rfl⟩ <;>
        simpa [Maybe.any] using ih htail

lemma anyGo_errors (es acc : List JSVal) :
    Result.anyGo (es.map ResultObj.error) acc
      = ResultObj.error (.arr (acc ++ es)) := by
  induction es generalizing acc with
  | nil => simp [Result.anyGo, mkErrorResult_arr]
  | cons e es ih =>
      simp only [List.map_cons, Result.anyGo, ih, List.append_assoc,
        List.singleton_append]

lemma anyGo_first_okay (es : List JSVal) (v : JSVal) (suffix : List ResultObj)
    (acc : List JSVal) :
    Result.anyGo (es.map ResultObj.error ++ ResultObj.okay v :: suffix) acc
      = ResultObj.okay v := by
  induction es generalizing acc with
  | nil => rfl
  | cons e es ih =>
      simp only [List.map_cons, List.cons_append, Result.anyGo]
      exact ih _

/-- C6: First-success selection: `Maybe.any` and `Result.any` return the
first present/successful input element itself; when no input is
present/successful, `Maybe.any` returns the generic `None` singleton
(dropping any `NotFound` detail) while `Result.any` returns an
`ErrorResult` wrapping the array of every input's error value in input
order. -/
theorem first_success_selection :
    (∀ (pre : List MaybeObj) (v : JSVal) (suffix : List MaybeObj),
      (∀ m ∈ pre, m.isValue = false) →
      Maybe.any (pre ++ MaybeObj.value v :: suffix) = MaybeObj.value v)
    ∧ (∀ ms : List MaybeObj,
      (∀ m ∈ ms, m.isValue = false) → Maybe.any ms = MaybeObj.none)
    ∧ (∀ (es : List JSVal) (v : JSVal) (suffix : List ResultObj),
      Result.any (es.map ResultObj.error ++ ResultObj.okay v :: suffix)
        = ResultObj.okay v)
    ∧ (∀ es : List JSVal,
      Result.any (es.map ResultObj.error) = ResultObj.error (.arr es)) := by
  refine ⟨fun pre v suffix h => ?_, fun ms h => ?_,
    fun es v suffix => anyGo_first_okay es v suffix [],
    fun es => by simpa using anyGo_errors es []⟩
  · rw [any_skip pre h]
    rfl
  · have := any_skip ms h []
    simpa using this

theorem first_success_selection_witness :
    Maybe.any [MaybeObj.none, MaybeObj.value (.num 3)] = MaybeObj.value (.num 3)
    ∧ Maybe.any [MaybeObj.none, MaybeObj.notFound ["w"]] = MaybeObj.none
    ∧ Result.any [ResultObj.error (.str "a"), ResultObj.okay (.num 3)]
        = ResultObj.okay (.num 3)
    ∧ Result.any [ResultObj.error (.str "a"), ResultObj.error (.str "b")]
        = ResultObj.error (.arr [.str "a", .str "b"]) :=
  ⟨first_success_selection.1 [MaybeObj.none] (.num 3) [] (by decide),
    first_success_selection.2.1 [MaybeObj.none, MaybeObj.notFound ["w"]]
      (by decide),
    first_success_selection.2.2.1 [.str "a"] (.num 3) [],
    first_success_selection.2.2.2 [.str "a", .str "b"]⟩

lemma mkOkayResult_of_not_result (v : JSVal) (h : v.isResultInstance = false) :
    mkOkayResult v = ResultObj.okay v := by
  cases v <;> first | rfl | simp [JSVal.isResultInstance] at h

lemma mkErrorResult_of_not_result (e : JSVal) (h : e.isResultInstance = false) :
    mkErrorResult e = ResultObj.error e := by
  cases e <;> first | rfl | simp [JSVal.isResultInstance] at h

/-- C5, counterexample: the thrown value is not always carried untouched:
when the callback throws a value that is itself a `Result` instance (here
`Okay(42)`), the `ErrorResult` constructor's double-wrapping protection
replaces it by its payload, so the failure outcome carries `42` rather than
the thrown `Okay(42)` instance. -/
theorem exception_capture_counterexample :
    Result.wrap (.error (ResultObj.okay (.num 42)).toJS) = ResultObj.error (.num 42)
    ∧ ResultObj.error (.num 42) ≠ ResultObj.error (ResultObj.okay (.num 42)).toJS := by
  refine ⟨rfl, ?_⟩
  simp [ResultObj.toJS]

/-- C5, amended: for every callback whose returned or thrown value is not
itself a `Result` instance, `Result.wrap` returns a success outcome wrapping
the returned value or a failure outcome carrying the thrown value untouched
(a thrown or returned `Result` instance is unwrapped one level by the
constructors); `Result.wrapAsync` normalizes an asynchronous rejection and
a synchronous throw occurring before any suspension into the same resolved
failure-outcome shape, never rejecting. -/
theorem exception_capture (v e : JSVal) (hv : v.isResultInstance = false)
    (he : e.isResultInstance = false) :
    Result.wrap (.ok v) = ResultObj.okay v
    ∧ Result.wrap (.error e) = ResultObj.error e
    ∧ Result.wrapAsync (.resolve v) = ResultObj.okay v
    ∧ Result.wrapAsync (.syncThrow e) = ResultObj.error e
    ∧ Result.wrapAsync (.syncThrow e) = Result.wrapAsync (.reject e) :=
  ⟨mkOkayResult_of_not_result v hv, mkErrorResult_of_not_result e he,
    mkOkayResult_of_not_result v hv, mkErrorResult_of_not_result e he, rfl⟩

theorem exception_capture_witness :
    Result.wrap (.ok (.num 42)) = ResultObj.okay (.num 42)
    ∧ Result.wrap (.error (.err ⟨.plainError, "x"⟩))
        = ResultObj.error (.err ⟨.plainError, "x"⟩)
    ∧ Result.wrapAsync (.resolve (.num 42)) = ResultObj.okay (.num 42)
    ∧ Result.wrapAsync (.syncThrow (.err ⟨.plainError, "x"⟩))
        = ResultObj.error (.err ⟨.plainError, "x"⟩)
    ∧ Result.wrapAsync (.syncThrow (.err ⟨.plainError, "x"⟩))
        = Result.wrapAsync (.reject (.err ⟨.plainError, "x"⟩)) :=
  exception_capture (.num 42) (.err ⟨.plainError, "x"⟩) rfl rfl

/-- C7, counterexample: `unwrapOrThrow` with the empty string does not throw
an error constructed from the empty string: the empty string is falsy, so
`MaybeNone.unwrapOrThrow("")` falls back to `unwrap()` and throws the
default-message `NoneError` (message "Maybe is none", not ""), and
`ErrorResult.unwrapOrThrow("")` throws the result's own error value (here
`7`) instead of `new Error("")`. -/
theorem unwrapOrThrow_empty_string_counterexample :
    MaybeObj.none.unwrapOrThrow (some (.str ""))
      = Except.error (.err (mkNoneError Option.none))
    ∧ (Except.error (.err (mkNoneError Option.none)) : Except JSVal JSVal)
      ≠ Except.error (.err (mkNoneError (some "")))
    ∧ (ResultObj.error (.num 7)).unwrapOrThrow (some (.str ""))
      = Except.error (.num 7)
    ∧ (Except.error (.num 7) : Except JSVal JSVal)
      ≠ Except.error (.err ⟨.plainError, ""⟩) := by
  refine ⟨rfl, ?_, rfl, ?_⟩ <;> simp [mkNoneError]

/-- C7, amended: `unwrapOrThrow(altError)` on an absent `Maybe` or a failure
`Result` throws the literal `Error` when `altError` is an `Error`, the
producer's result when it is a function, and an error constructed from the
string when it is a non-empty message string; the empty string is falsy and
behaves like an omitted override, which falls back to `unwrap()`'s behavior
(the `Maybe` default error by virtual dispatch, resp. throwing the
`Result`'s own error value); a present/success instance returns its payload
without throwing. -/
theorem unwrapOrThrow_override (m : MaybeObj) (hm : m.isValue = false)
    (e2 : ErrObj) (f : Unit → ErrObj) (g : JSVal → ErrObj) (s : String)
    (hs : s ≠ "") (v er : JSVal) (a : Option MAlt) (b : Option RAlt) :
    (MaybeObj.value v).unwrapOrThrow a = .ok v
    ∧ m.unwrapOrThrow Option.none = m.unwrap
    ∧ m.unwrapOrThrow (some (.error e2)) = .error (.err e2)
    ∧ m.unwrapOrThrow (some (.fn f)) = .error (.err (f ()))
    ∧ m.unwrapOrThrow (some (.str s)) = .error (.err (mkNoneError (some s)))
    ∧ m.unwrapOrThrow (some (.str "")) = m.unwrap
    ∧ (ResultObj.okay v).unwrapOrThrow b = .ok v
    ∧ (ResultObj.error er).unwrapOrThrow Option.none = .error er
    ∧ (ResultObj.error er).unwrapOrThrow (some (.error e2)) = .error (.err e2)
    ∧ (ResultObj.error er).unwrapOrThrow (some (.fn g)) = .error (.err (g er))
    ∧ (ResultObj.error er).unwrapOrThrow (some (.str s))
        = .error (.err ⟨.plainError, s⟩)
    ∧ (ResultObj.error er).unwrapOrThrow (some (.str "")) = .error er := by
  have hsb : (s == "") = false := beq_eq_false_iff_ne.mpr hs
  rcases isValue_false_elim hm with rfl | ⟨what, rfl⟩ <;>
    refine ⟨rfl, rfl, rfl, rfl, ?_, rfl, rfl, rfl, rfl, rfl, ?_, rfl⟩ <;>
    simp [MaybeObj.unwrapOrThrow, ResultObj.unwrapOrThrow, mAltFalsy,
      rAltTruthy, hsb, hs]

theorem unwrapOrThrow_override_witness :
    (MaybeObj.value (.num 5)).unwrapOrThrow Option.none = .ok (.num 5)
    ∧ (MaybeObj.notFound ["w"]).unwrapOrThrow Option.none
        = (MaybeObj.notFound ["w"]).unwrap
    ∧ (MaybeObj.notFound ["w"]).unwrapOrThrow (some (.error ⟨.plainError, "alt"⟩))
        = .error (.err ⟨.plainError, "alt"⟩)
    ∧ (MaybeObj.notFound ["w"]).unwrapOrThrow
        (some (.fn fun _ => ⟨.plainError, "made"⟩))
        = .error (.err ⟨.plainError, "made"⟩)
    ∧ (MaybeObj.notFound ["w"]).unwrapOrThrow (some (.str "msg"))
        = .error (.err (mkNoneError (some "msg")))
    ∧ (MaybeObj.notFound ["w"]).unwrapOrThrow (some (.str ""))
        = (MaybeObj.notFound ["w"]).unwrap
    ∧ (ResultObj.okay (.num 5)).unwrapOrThrow Option.none = .ok (.num 5)
    ∧ (ResultObj.error (.num 7)).unwrapOrThrow Option.none = .error (.num 7)
    ∧ (ResultObj.error (.num 7)).unwrapOrThrow (some (.error ⟨.plainError, "alt"⟩))
        = .error (.err ⟨.plainError, "alt"⟩)
    ∧ (ResultObj.error (.num 7)).unwrapOrThrow
        (some (.fn fun _ => ⟨.plainError, "made"⟩))
        = .error (.err ⟨.plainError, "made"⟩)
    ∧ (ResultObj.error (.num 7)).unwrapOrThrow (some (.str "msg"))
        = .error (.err ⟨.plainError, "msg"⟩)
    ∧ (ResultObj.error (.num 7)).unwrapOrThrow (some (.str "")) = .error (.num 7) :=
  unwrapOrThrow_override (MaybeObj.notFound ["w"]) rfl ⟨.plainError, "alt"⟩
    (fun _ => ⟨.plainError, "made"⟩) (fun _ => ⟨.plainError, "made"⟩) "msg"
    (by decide) (.num 5) (.num 7) Option.none Option.none

/-- C8: Laziness contract: on a present `Maybe` the fallback callbacks of
`unwrapOrElse`, `orElse` and `mapOrElse` are never invoked (the result does
not depend on them); on an absent `Maybe`, `map`, `andThen` and `filter`
return the instance itself without invoking the supplied mapper or
predicate (the result does not depend on them). -/
theorem laziness_contract :
    (∀ (v : JSVal) (f g : Unit → JSVal),
      (MaybeObj.value v).unwrapOrElse f = (MaybeObj.value v).unwrapOrElse g)
    ∧ (∀ (v : JSVal) (f g : Unit → MaybeObj),
      (MaybeObj.value v).orElse f = (MaybeObj.value v).orElse g)
    ∧ (∀ (v : JSVal) (mf : JSVal → JSVal) (f g : Unit → JSVal),
      (MaybeObj.value v).mapOrElse mf f = (MaybeObj.value v).mapOrElse mf g)
    ∧ (∀ (m : MaybeObj), m.isValue = false →
      ∀ f : JSVal → JSVal, m.map f = m)
    ∧ (∀ (m : MaybeObj), m.isValue = false →
      ∀ f : JSVal → MaybeObj, m.andThen f = m)
    ∧ (∀ (m : MaybeObj), m.isValue = false →
      ∀ p : JSVal → Bool, m.filter p = m) := by
  refine ⟨fun v f g => rfl, fun v f g => rfl, fun v mf f g => rfl,
    fun m hm f => ?_, fun m hm f => ?_, fun m hm p => ?_⟩ <;>
    rcases isValue_false_elim hm with rfl | ⟨what, rfl⟩ <;> rfl

theorem laziness_contract_witness :
    (MaybeObj.value (.num 1)).unwrapOrElse (fun _ => .num 2)
      = (MaybeObj.value (.num 1)).unwrapOrElse (fun _ => .num 3)
    ∧ (MaybeObj.value (.num 1)).orElse (fun _ => MaybeObj.none)
      = (MaybeObj.value (.num 1)).orElse (fun _ => MaybeObj.value (.num 9))
    ∧ (MaybeObj.value (.num 1)).mapOrElse (fun x => x) (fun _ => .num 2)
      = (MaybeObj.value (.num 1)).mapOrElse (fun x => x) (fun _ => .num 3)
    ∧ (MaybeObj.notFound ["k"]).map (fun _ => .num 9) = MaybeObj.notFound ["k"]
    ∧ MaybeObj.none.andThen (fun _ => MaybeObj.value (.num 9)) = MaybeObj.none
    ∧ (MaybeObj.notFound ["k"]).filter (fun _ => false)
      = MaybeObj.notFound ["k"] :=
  ⟨laziness_contract.1 (.num 1) (fun _ => .num 2) (fun _ => .num 3),
    laziness_contract.2.1 (.num 1) (fun _ => MaybeObj.none)
      (fun _ => MaybeObj.value (.num 9)),
    laziness_contract.2.2.1 (.num 1) (fun x => x) (fun _ => .num 2)
      (fun _ => .num 3),
    laziness_contract.2.2.2.1 (MaybeObj.notFound ["k"]) rfl (fun _ => .num 9),
    laziness_contract.2.2.2.2.1 MaybeObj.none rfl
      (fun _ => MaybeObj.value (.num 9)),
    laziness_contract.2.2.2.2.2 (MaybeObj.notFound ["k"]) rfl (fun _ => false)⟩

end MaybeTs
